import Mathlib

/-
Verification of the presentation/configuration layer of cargo-geiger
(src/cargo-geiger/src/format/print_config.rs): OutputFormat parsing,
pattern-template compilation, PrintConfig resolution from flags, and
status-driven colorization.
-/

namespace CargoGeiger

/-- Modelled from the spec: one parsed unit of an output template (the Chunk
type of the format module, whose defining file is not among the sources; the
variant names Raw, Package, License, Repository are the ones the tests in
print_config.rs use). A Chunk is a literal text run or a placeholder bound to
a fixed metadata field. -/
inductive Chunk where
  | Raw : String → Chunk
  | Package : Chunk
  | License : Chunk
  | Repository : Chunk
deriving DecidableEq, Repr

/-- The compiled, ordered sequence of Chunks for one template
(format/pattern.rs, shape as used by the tests in print_config.rs). -/
structure Pattern where
  chunks : List Chunk
deriving DecidableEq, Repr

/-- Modelled from the spec: the placeholder tokens of the template language
(p, l, r), each bound to a fixed metadata field. Any other token is
unrecognized. -/
def chunk_of_token : String → Option Chunk
  | "p" => some Chunk.Package
  | "l" => some Chunk.License
  | "r" => some Chunk.Repository
  | _ => none

/-- Appends the pending literal run as one Raw chunk, or nothing when the run
is empty. Adjacent literal characters therefore merge into a single chunk. -/
def flush_literal (acc : List Chunk) (lit : String) : List Chunk :=
  if lit = "" then acc else acc ++ [Chunk.Raw lit]

/-- Modelled from the spec: the worker of the pattern compiler
(format/pattern.rs is not among the sources). Walks the template characters;
the second argument is `some tok` while inside a placeholder whose token text
so far is `tok`, and `none` outside; `lit` is the pending literal run and
`acc` the chunks already produced. An opening brace starts a placeholder
(flushing the literal run), a closing brace resolves the token via
`chunk_of_token`; an unrecognized token fails with an error naming the
offending token, and a placeholder still open at the end of input fails. -/
def try_build_aux : List Char → Option String → String → List Chunk →
    Except String (List Chunk)
  | [], none, lit, acc => Except.ok (flush_literal acc lit)
  | [], some tok, _lit, _acc =>
      Except.error ("unclosed placeholder: " ++ tok)
  | c :: rest, none, lit, acc =>
      if c = '\x7b' then try_build_aux rest (some "") "" (flush_literal acc lit)
      else try_build_aux rest none (lit.push c) acc
  | c :: rest, some tok, lit, acc =>
      if c = '\x7d' then
        match chunk_of_token tok with
        | some ch => try_build_aux rest none lit (acc ++ [ch])
        | none => Except.error ("unrecognized placeholder: " ++ tok)
      else try_build_aux rest (some (tok.push c)) lit acc

/-- Modelled from the spec: Pattern::try_build (format/pattern.rs is not among
the sources). Compiles a template string mixing literal text with
brace-delimited single-token placeholders into a Pattern; deterministic and
total over the accepted grammar, failing with a descriptive error on an
unrecognized placeholder token. -/
def Pattern.try_build (format : String) : Except String Pattern :=
  (try_build_aux format.toList none "" []).map Pattern.mk

/-- The closed output-encoding set of print_config.rs. -/
inductive OutputFormat where
  | Ascii : OutputFormat
  | Json : OutputFormat
  | GitHubMarkdown : OutputFormat
  | Ratio : OutputFormat
  | Utf8 : OutputFormat
deriving DecidableEq, Repr

/-- `impl Default for OutputFormat`: the default output format is Utf8. -/
def OutputFormat.default : OutputFormat := OutputFormat.Utf8

/-- The fieldless error value returned on an unrecognized output-format
name. -/
inductive OutputFormatParseError where
  | mk : OutputFormatParseError
deriving DecidableEq, Repr

/-- `impl FromStr for OutputFormat`: exact, case-sensitive match over the
five variant names; anything else is OutputFormatParseError. The Rust `match`
on string literals is rendered as the equivalent chain of equality tests. -/
def OutputFormat.from_str (s : String) :
    Except OutputFormatParseError OutputFormat :=
  if s = "Ascii" then Except.ok OutputFormat.Ascii
  else if s = "Json" then Except.ok OutputFormat.Json
  else if s = "GitHubMarkdown" then Except.ok OutputFormat.GitHubMarkdown
  else if s = "Ratio" then Except.ok OutputFormat.Ratio
  else if s = "Utf8" then Except.ok OutputFormat.Utf8
  else Except.error OutputFormatParseError.mk

/-- The prefix-style set of print_config.rs (the Rust enum named Prefix;
the spec calls it PrefixStyle, a name Lean accepts where the Rust one is a
reserved word). -/
inductive PrefixStyle where
  | Depth : PrefixStyle
  | Indent : PrefixStyle
  | None : PrefixStyle
deriving DecidableEq, Repr

/-- petgraph's EdgeDirection, as consumed by print_config.rs. -/
inductive EdgeDirection where
  | Outgoing : EdgeDirection
  | Incoming : EdgeDirection
deriving DecidableEq, Repr

/-- geiger's IncludeTests policy, as consumed by print_config.rs. -/
inductive IncludeTests where
  | Yes : IncludeTests
  | No : IncludeTests
deriving DecidableEq, Repr

/-- Modelled from the spec: the tri-state detection status of the external
scanner (defined in the format module, not among the sources; its three
variant names are the ones print_config.rs matches on). -/
inductive CrateDetectionStatus where
  | NoneDetectedForbidsUnsafe : CrateDetectionStatus
  | NoneDetectedAllowsUnsafe : CrateDetectionStatus
  | UnsafeDetected : CrateDetectionStatus
deriving DecidableEq, Repr

/-- Modelled from the spec: FormatError of the format module (its defining
file is not among the sources); print_config.rs builds it from a single
message string. -/
structure FormatError where
  message : String
deriving DecidableEq, Repr

/-- cargo's CliError as used here: a wrapped error plus a numeric exit
code (CliError::new(error, code)). -/
structure CliError where
  error : FormatError
  exit_code : Nat
deriving DecidableEq, Repr

/-- Modelled from the spec: the flag bundle consumed by PrintConfig::new
(args.rs is not among the sources; the field shape is the one the spec's
external-interfaces section gives and print_config.rs reads). -/
structure Args where
  all : Bool
  invert : Bool
  format : String
  include_tests : Bool
  prefix_depth : Bool
  no_indent : Bool
  output_format : OutputFormat
deriving DecidableEq, Repr

/-- Modelled from the spec: the default flag bundle (Args::default(), not
among the sources): every boolean flag unset, the empty format template, the
default output format. -/
def Args.default : Args :=
  { all := false
    invert := false
    format := ""
    include_tests := false
    prefix_depth := false
    no_indent := false
    output_format := OutputFormat.default }

/-- The immutable rendering configuration of print_config.rs. The Rust field
named like the style set keeps the spec's name prefix_style, since Lean
reserves the Rust spelling. -/
structure PrintConfig where
  all : Bool
  allow_partial_results : Bool
  direction : EdgeDirection
  format : Pattern
  include_tests : IncludeTests
  prefix_style : PrefixStyle
  output_format : OutputFormat
deriving DecidableEq, Repr

/-- PrintConfig::new of print_config.rs: resolves the flag bundle into a
configuration, or wraps the pattern-compilation error into a CliError with
exit code 1. -/
def PrintConfig.new (args : Args) : Except CliError PrintConfig :=
  let allow_partial_results := true
  let direction :=
    match args.invert with
    | true => EdgeDirection.Incoming
    | false => EdgeDirection.Outgoing
  match Pattern.try_build args.format with
  | Except.error e =>
      Except.error { error := { message := e }, exit_code := 1 }
  | Except.ok format =>
      let include_tests :=
        match args.include_tests with
        | true => IncludeTests.Yes
        | false => IncludeTests.No
      let prefix_style :=
        match args.prefix_depth, args.no_indent with
        | true, _ => PrefixStyle.Depth
        | false, true => PrefixStyle.None
        | false, false => PrefixStyle.Indent
      Except.ok
        { all := args.all
          allow_partial_results := allow_partial_results
          direction := direction
          format := format
          include_tests := include_tests
          output_format := args.output_format
          prefix_style := prefix_style }

/-- impl Default for PrintConfig: the separately defined static default
configuration. The Rust code unwraps try_build of the one-character template;
that compilation succeeds, and the model reads its value out. -/
def PrintConfig.default : PrintConfig :=
  { all := false
    allow_partial_results := false
    direction := EdgeDirection.Outgoing
    format := ((Pattern.try_build "p").toOption).getD (Pattern.mk [])
    include_tests := IncludeTests.Yes
    prefix_style := PrefixStyle.Depth
    output_format := OutputFormat.default }

/-- The foreground colors the colored crate applies in this file. -/
inductive Color where
  | Green : Color
  | Red : Color
deriving DecidableEq, Repr

/-- The observable styling state of the colored crate's ColoredString, for
the operations print_config.rs uses: the text, an optional foreground color
and the bold style flag. -/
structure ColoredString where
  input : String
  fgcolor : Option Color
  style_bold : Bool
deriving DecidableEq, Repr

/-- ColoredString::from(s): the text with no styling. -/
def ColoredString.ofString (s : String) : ColoredString :=
  { input := s, fgcolor := none, style_bold := false }

/-- Colorize::green of the colored crate: green foreground. -/
def green (s : String) : ColoredString :=
  { input := s, fgcolor := some Color.Green, style_bold := false }

/-- Colorize::normal of the colored crate: no styling. -/
def normal (s : String) : ColoredString :=
  { input := s, fgcolor := none, style_bold := false }

/-- Colorize::red of the colored crate: red foreground. -/
def red (s : String) : ColoredString :=
  { input := s, fgcolor := some Color.Red, style_bold := false }

/-- ColoredString::bold: sets the bold style flag. -/
def ColoredString.bold (c : ColoredString) : ColoredString :=
  { c with style_bold := true }

/-- colorize of print_config.rs: GitHubMarkdown short-circuits to the
unstyled text; otherwise the style is chosen by the detection status. -/
def colorize (crate_detection_status : CrateDetectionStatus)
    (output_format : OutputFormat) (string : String) : ColoredString :=
  match output_format with
  | OutputFormat.GitHubMarkdown => ColoredString.ofString string
  | _ =>
    match crate_detection_status with
    | CrateDetectionStatus.NoneDetectedForbidsUnsafe => green string
    | CrateDetectionStatus.NoneDetectedAllowsUnsafe => normal string
    | CrateDetectionStatus.UnsafeDetected => ColoredString.bold (red string)

/-- A flag bundle that differs from the default only in the format
template: the shape the tests of print_config.rs build with struct-update
syntax. -/
def args_for_format (f : String) : Args :=
  { Args.default with format := f }

/-- A concrete flag bundle with every boolean flag set, used to exercise the
resolver at a known input. -/
def args_w : Args :=
  { all := false
    invert := true
    format := ""
    include_tests := true
    prefix_depth := true
    no_indent := true
    output_format := OutputFormat.Ascii }

/-- The configuration PrintConfig::new resolves args_w to. -/
def cfg_w : PrintConfig :=
  { all := false
    allow_partial_results := true
    direction := EdgeDirection.Incoming
    format := Pattern.mk []
    include_tests := IncludeTests.Yes
    prefix_style := PrefixStyle.Depth
    output_format := OutputFormat.Ascii }

/-- When the format template compiles to a pattern, PrintConfig::new succeeds
and every field is the stated function of the flags. -/
theorem new_ok_shape (args : Args) (p : Pattern)
    (hp : Pattern.try_build args.format = Except.ok p) :
    PrintConfig.new args = Except.ok
      { all := args.all
        allow_partial_results := true
        direction :=
          if args.invert then EdgeDirection.Incoming else EdgeDirection.Outgoing
        format := p
        include_tests :=
          if args.include_tests then IncludeTests.Yes else IncludeTests.No
        prefix_style :=
          if args.prefix_depth then PrefixStyle.Depth
          else if args.no_indent then PrefixStyle.None
          else PrefixStyle.Indent
        output_format := args.output_format } := by
  obtain ⟨a, i, f, t, d, n, o⟩ := args
  simp only [PrintConfig.new] at *
  rw [hp]
  cases i <;> cases t <;> cases d <;> cases n <;> rfl

/-- When the format template fails to compile, PrintConfig::new returns the
pattern error wrapped into a CliError with exit code 1. -/
theorem new_error_shape (args : Args) (e : String)
    (hp : Pattern.try_build args.format = Except.error e) :
    PrintConfig.new args =
      Except.error { error := { message := e }, exit_code := 1 } := by
  simp only [PrintConfig.new]
  rw [hp]

/-- C1: PrintConfig resolution applies the two-flag priority rule for the
prefix field: prefix_depth=true yields Depth regardless of no_indent;
prefix_depth=false with no_indent=true yields None; prefix_depth=false with
no_indent=false yields Indent. -/
theorem c1_prefix_two_flag_priority (args : Args) (cfg : PrintConfig)
    (h : PrintConfig.new args = Except.ok cfg) :
    (args.prefix_depth = true → cfg.prefix_style = PrefixStyle.Depth) ∧
    (args.prefix_depth = false → args.no_indent = true →
      cfg.prefix_style = PrefixStyle.None) ∧
    (args.prefix_depth = false → args.no_indent = false →
      cfg.prefix_style = PrefixStyle.Indent) := by
  cases hp : Pattern.try_build args.format with
  | error e =>
      rw [new_error_shape args e hp] at h
      exact Except.noConfusion h
  | ok p =>
      rw [new_ok_shape args p hp] at h
      injection h with h2
      subst h2
      refine ⟨fun hd => ?_, fun hd hn => ?_, fun hd hn => ?_⟩ <;> simp_all

/-- C1 witness: at args_w (prefix_depth set), the resolved prefix style is
Depth. -/
theorem c1_prefix_two_flag_priority_witness :
    cfg_w.prefix_style = PrefixStyle.Depth :=
  (c1_prefix_two_flag_priority args_w cfg_w rfl).1 rfl

/-- C2: every successfully resolved PrintConfig has
allow_partial_results = true, while the static default configuration has
allow_partial_results = false: the two paths disagree on this field. -/
theorem c2_allow_partial_results_asymmetry (args : Args) (cfg : PrintConfig)
    (h : PrintConfig.new args = Except.ok cfg) :
    cfg.allow_partial_results = true ∧
    PrintConfig.default.allow_partial_results = false := by
  refine ⟨?_, rfl⟩
  cases hp : Pattern.try_build args.format with
  | error e =>
      rw [new_error_shape args e hp] at h
      exact Except.noConfusion h
  | ok p =>
      rw [new_ok_shape args p hp] at h
      injection h with h2
      subst h2
      rfl

/-- C2 witness: at args_w the resolved configuration allows partial results
while the static default does not. -/
theorem c2_allow_partial_results_asymmetry_witness :
    cfg_w.allow_partial_results = true ∧
    PrintConfig.default.allow_partial_results = false :=
  c2_allow_partial_results_asymmetry args_w cfg_w rfl

/-- C3: PrintConfig::new fails exactly when pattern compilation of the format
template fails; the pattern error is then wrapped into a CliError with exit
code 1 and no configuration is produced, and every flag bundle whose template
compiles resolves successfully (carrying that compiled pattern). -/
theorem c3_error_iff_pattern_failure (args : Args) :
    (∀ e, Pattern.try_build args.format = Except.error e →
      PrintConfig.new args =
        Except.error { error := { message := e }, exit_code := 1 }) ∧
    (∀ p, Pattern.try_build args.format = Except.ok p →
      ∃ cfg, PrintConfig.new args = Except.ok cfg ∧ cfg.format = p) ∧
    ((∃ err, PrintConfig.new args = Except.error err) ↔
      (∃ e, Pattern.try_build args.format = Except.error e)) := by
  refine ⟨fun e he => new_error_shape args e he,
          fun p hp => ⟨_, new_ok_shape args p hp, rfl⟩, ?_⟩
  constructor
  · rintro ⟨err, herr⟩
    cases hp : Pattern.try_build args.format with
    | error e => exact ⟨e, rfl⟩
    | ok p =>
        rw [new_ok_shape args p hp] at herr
        exact Except.noConfusion herr
  · rintro ⟨e, he⟩
    exact ⟨_, new_error_shape args e he⟩

/-- C3 witness: the template with the unrecognized placeholder token q makes
PrintConfig::new return the wrapped error with exit code 1. -/
theorem c3_error_iff_pattern_failure_witness :
    PrintConfig.new (args_for_format "\x7bq\x7d") =
      Except.error
        { error := { message := "unrecognized placeholder: q" },
          exit_code := 1 } :=
  (c3_error_iff_pattern_failure (args_for_format "\x7bq\x7d")).1
    "unrecognized placeholder: q" rfl

/-- C4: OutputFormat parsing is exact-match and case-sensitive over the closed
five-name set; every other string yields OutputFormatParseError; the default
OutputFormat is Utf8. -/
theorem c4_output_format_parse :
    (OutputFormat.from_str "Ascii" = Except.ok OutputFormat.Ascii ∧
     OutputFormat.from_str "Json" = Except.ok OutputFormat.Json ∧
     OutputFormat.from_str "GitHubMarkdown" =
       Except.ok OutputFormat.GitHubMarkdown ∧
     OutputFormat.from_str "Ratio" = Except.ok OutputFormat.Ratio ∧
     OutputFormat.from_str "Utf8" = Except.ok OutputFormat.Utf8) ∧
    OutputFormat.default = OutputFormat.Utf8 ∧
    (∀ s : String, s ≠ "Ascii" → s ≠ "Json" → s ≠ "GitHubMarkdown" →
      s ≠ "Ratio" → s ≠ "Utf8" →
      OutputFormat.from_str s = Except.error OutputFormatParseError.mk) := by
  refine ⟨⟨rfl, rfl, rfl, rfl, rfl⟩, rfl, ?_⟩
  intro s h1 h2 h3 h4 h5
  simp [OutputFormat.from_str, h1, h2, h3, h4, h5]

/-- C4 witness: the differently-cased name ascii is rejected. -/
theorem c4_output_format_parse_witness :
    OutputFormat.from_str "ascii" = Except.error OutputFormatParseError.mk :=
  c4_output_format_parse.2.2 "ascii" (by decide) (by decide) (by decide)
    (by decide) (by decide)

/-- C5: for every detection status and every input string, colorize with
output format GitHubMarkdown returns the input text with no styling. -/
theorem c5_markdown_unstyled (status : CrateDetectionStatus) (s : String) :
    colorize status OutputFormat.GitHubMarkdown s =
      { input := s, fgcolor := none, style_bold := false } := by
  cases status <;> rfl

/-- C6: for every output format other than GitHubMarkdown, colorize styles
purely by detection status (green for none-detected-forbids, neutral for
none-detected-allows, red bold for detected), and the result equals the one
for any other non-markdown format. -/
theorem c6_nonmarkdown_status_styles (fmt : OutputFormat)
    (h : fmt ≠ OutputFormat.GitHubMarkdown) (s : String) :
    colorize CrateDetectionStatus.NoneDetectedForbidsUnsafe fmt s =
      { input := s, fgcolor := some Color.Green, style_bold := false } ∧
    colorize CrateDetectionStatus.NoneDetectedAllowsUnsafe fmt s =
      { input := s, fgcolor := none, style_bold := false } ∧
    colorize CrateDetectionStatus.UnsafeDetected fmt s =
      { input := s, fgcolor := some Color.Red, style_bold := true } ∧
    (∀ status, colorize status fmt s = colorize status OutputFormat.Ascii s) := by
  cases fmt
  case GitHubMarkdown => exact absurd rfl h
  all_goals exact ⟨rfl, rfl, rfl, fun status => by cases status <;> rfl⟩

/-- C6 witness: at the Ascii format, the forbids-none status gets the green
success style. -/
theorem c6_nonmarkdown_status_styles_witness :
    colorize CrateDetectionStatus.NoneDetectedForbidsUnsafe OutputFormat.Ascii
        "string_value" =
      { input := "string_value", fgcolor := some Color.Green,
        style_bold := false } :=
  (c6_nonmarkdown_status_styles OutputFormat.Ascii (by decide) "string_value").1

/-- C7: in every successfully resolved PrintConfig, direction is Incoming
exactly when invert is set and Outgoing exactly when it is not. -/
theorem c7_direction_from_invert (args : Args) (cfg : PrintConfig)
    (h : PrintConfig.new args = Except.ok cfg) :
    (cfg.direction = EdgeDirection.Incoming ↔ args.invert = true) ∧
    (cfg.direction = EdgeDirection.Outgoing ↔ args.invert = false) := by
  cases hp : Pattern.try_build args.format with
  | error e =>
      rw [new_error_shape args e hp] at h
      exact Except.noConfusion h
  | ok p =>
      rw [new_ok_shape args p hp] at h
      injection h with h2
      subst h2
      cases hi : args.invert <;> simp [hi]

/-- C7 witness: args_w has invert set and resolves to direction Incoming. -/
theorem c7_direction_from_invert_witness :
    (cfg_w.direction = EdgeDirection.Incoming ↔ args_w.invert = true) ∧
    (cfg_w.direction = EdgeDirection.Outgoing ↔ args_w.invert = false) :=
  c7_direction_from_invert args_w cfg_w rfl

/-- C8: in every successfully resolved PrintConfig, the include-tests policy
is Yes exactly when the include_tests flag is set and No exactly when it is
not. -/
theorem c8_include_tests_policy (args : Args) (cfg : PrintConfig)
    (h : PrintConfig.new args = Except.ok cfg) :
    (cfg.include_tests = IncludeTests.Yes ↔ args.include_tests = true) ∧
    (cfg.include_tests = IncludeTests.No ↔ args.include_tests = false) := by
  cases hp : Pattern.try_build args.format with
  | error e =>
      rw [new_error_shape args e hp] at h
      exact Except.noConfusion h
  | ok p =>
      rw [new_ok_shape args p hp] at h
      injection h with h2
      subst h2
      cases ht : args.include_tests <;> simp [ht]

/-- C8 witness: args_w has include_tests set and resolves to policy Yes. -/
theorem c8_include_tests_policy_witness :
    (cfg_w.include_tests = IncludeTests.Yes ↔ args_w.include_tests = true) ∧
    (cfg_w.include_tests = IncludeTests.No ↔ args_w.include_tests = false) :=
  c8_include_tests_policy args_w cfg_w rfl

/-- C9: pattern compilation of the five template strings produces exactly the
stated chunk sequences (adjacent literal runs merged), and the format field
of the PrintConfig built from each template equals that sequence. -/
theorem c9_format_templates :
    (Pattern.try_build "\x7bp\x7d" = Except.ok (Pattern.mk [Chunk.Package]) ∧
     (PrintConfig.new (args_for_format "\x7bp\x7d")).map PrintConfig.format =
       Except.ok (Pattern.mk [Chunk.Package])) ∧
    (Pattern.try_build "\x7bl\x7d" = Except.ok (Pattern.mk [Chunk.License]) ∧
     (PrintConfig.new (args_for_format "\x7bl\x7d")).map PrintConfig.format =
       Except.ok (Pattern.mk [Chunk.License])) ∧
    (Pattern.try_build "\x7br\x7d" =
       Except.ok (Pattern.mk [Chunk.Repository]) ∧
     (PrintConfig.new (args_for_format "\x7br\x7d")).map PrintConfig.format =
       Except.ok (Pattern.mk [Chunk.Repository])) ∧
    (Pattern.try_build "Text" =
       Except.ok (Pattern.mk [Chunk.Raw "Text"]) ∧
     (PrintConfig.new (args_for_format "Text")).map PrintConfig.format =
       Except.ok (Pattern.mk [Chunk.Raw "Text"])) ∧
    (Pattern.try_build "\x7bp\x7d-\x7bl\x7d-\x7br\x7d-Text" =
       Except.ok (Pattern.mk
         [Chunk.Package, Chunk.Raw "-", Chunk.License, Chunk.Raw "-",
          Chunk.Repository, Chunk.Raw "-Text"]) ∧
     (PrintConfig.new
         (args_for_format "\x7bp\x7d-\x7bl\x7d-\x7br\x7d-Text")).map
       PrintConfig.format =
       Except.ok (Pattern.mk
         [Chunk.Package, Chunk.Raw "-", Chunk.License, Chunk.Raw "-",
          Chunk.Repository, Chunk.Raw "-Text"])) :=
  ⟨⟨rfl, rfl⟩, ⟨rfl, rfl⟩, ⟨rfl, rfl⟩, ⟨rfl, rfl⟩, ⟨rfl, rfl⟩⟩

/-- C10: the static default configuration fixes every field as stated —
all false, direction Outgoing, include_tests Yes, prefix Depth,
output format Utf8, format compiled from the bare one-character template
(a Raw literal, not the package placeholder) — and it differs from the
resolver applied to the default flag bundle in allow_partial_results,
include_tests and the prefix style. -/
theorem c10_static_default_config :
    PrintConfig.default =
      { all := false
        allow_partial_results := false
        direction := EdgeDirection.Outgoing
        format := Pattern.mk [Chunk.Raw "p"]
        include_tests := IncludeTests.Yes
        prefix_style := PrefixStyle.Depth
        output_format := OutputFormat.Utf8 } ∧
    Pattern.try_build "p" = Except.ok (Pattern.mk [Chunk.Raw "p"]) ∧
    PrintConfig.default.format ≠ Pattern.mk [Chunk.Package] ∧
    (∃ cfg, PrintConfig.new Args.default = Except.ok cfg ∧
      cfg.allow_partial_results = true ∧
      PrintConfig.default.allow_partial_results = false ∧
      cfg.include_tests = IncludeTests.No ∧
      PrintConfig.default.include_tests = IncludeTests.Yes ∧
      cfg.prefix_style = PrefixStyle.Indent ∧
      PrintConfig.default.prefix_style = PrefixStyle.Depth) := by
  refine ⟨rfl, rfl, by decide, ?_⟩
  exact ⟨_, rfl, rfl, rfl, rfl, rfl, rfl, rfl⟩

end CargoGeiger
